import Mathlib

/-!
Verification of the Jarvis audio-capture / transcription / scheduler core.

This file gives a shallow embedding of the relevant pieces of the
repository (src/utils/recorder.py, src/utils/periodic_tasks.py,
src/utils/summarize.py, src/utils/transcripts.py) and proves or refutes
the frozen behavioural claims about them.

Modelling conventions:
- Python strings are Lean `String`; Python `str.lower`, `str.strip`,
  `str.split`, `str.startswith`, `str.endswith` are embedded below as
  `pyLower`, `pyStrip`, `pySplit`, `pyStartsWith`, `pyEndsWithQm`
  (ASCII semantics, which is all the source exercises).
- Segment times (Python floats holding second offsets) are embedded as
  rationals; no float-rounding behaviour is exercised by the heuristics.
- Machine audio buffers are tracked by their sample count (a `Nat`),
  which is the only aspect the control flow inspects
  (`len(audio_buffer)`).
- External effects (the Whisper engine, HTTP calls, the file system,
  wall-clock time) are passed in as explicit values describing their
  outcome, so every function is executable and the control flow of the
  source is preserved exactly.
-/

namespace Jarvis

/-- Embedding of Python `str.lower()` (ASCII-relevant semantics): lower-case
every character of the string. -/
def pyLower (s : String) : String := ⟨s.data.map Char.toLower⟩

/-- Embedding of Python `str.strip()`: remove leading and trailing
whitespace characters. -/
def pyStrip (s : String) : String :=
  ⟨((s.data.dropWhile Char.isWhitespace).reverse.dropWhile Char.isWhitespace).reverse⟩

/-- Embedding of Python `str.startswith(pre)`. -/
def pyStartsWith (s pre : String) : Bool := pre.data.isPrefixOf s.data

/-- Embedding of Python `s.endswith("?")`: the last character is a question
mark. -/
def pyEndsWithQm (s : String) : Bool := s.data.getLast? == some '?'

/-- Helper for `pySplit`: accumulates the current word (reversed) and emits
words at whitespace runs, as Python `str.split()` does. -/
def pySplitAux : List Char → List Char → List (List Char)
  | [], acc => if acc.isEmpty then [] else [acc.reverse]
  | c :: rest, acc =>
    if c.isWhitespace then
      if acc.isEmpty then pySplitAux rest [] else acc.reverse :: pySplitAux rest []
    else pySplitAux rest (c :: acc)

/-- Embedding of Python `str.split()` with no argument: split on runs of
whitespace, never producing empty words. -/
def pySplit (s : String) : List String := (pySplitAux s.data []).map (fun l => ⟨l⟩)

/-- Number of audio samples per second (`SAMPLERATE` in config.py). -/
def SAMPLERATE : Nat := 16000

/-- Audio chunk duration in seconds (`CHUNK_DURATION` in config.py). -/
def CHUNK_DURATION : Nat := 10

/-- Summarization interval in minutes (`SUMMARY_INTERVAL_MIN` in config.py). -/
def SUMMARY_INTERVAL_MIN : Int := 15

/-- A transcript segment as produced by the transcription engine: the keys
`text`, `start` and `end` of the Python dict, with the two time offsets
(seconds) embedded as rationals. -/
structure Segment where
  text : String
  startT : ℚ
  endT : ℚ
deriving DecidableEq

instance : Inhabited Segment := ⟨⟨"", 0, 0⟩⟩

/-- Embedding of `detect_speaker_change(current_segment, all_segments, index)`
from src/utils/recorder.py: the sequence of early-return checks of the
source, in source order. Out-of-range access (which the source never
performs, since it returns before reading `all_segments[index-1]` when
`index == 0` and is only called with valid indices) is modelled with a
default segment. -/
def detect_speaker_change (current_segment : Segment) (all_segments : List Segment)
    (index : Nat) : Bool :=
  if index = 0 then
    true
  else
    let prev := all_segments.getD (index - 1) default
    let curr := current_segment
    if 1 < curr.startT - prev.endT then
      true
    else if pyEndsWithQm (pyStrip prev.text) && !(pyEndsWithQm (pyStrip curr.text)) then
      true
    else
      let prev_words := pySplit (pyLower prev.text)
      let curr_words := pySplit (pyLower curr.text)
      if (prev_words.contains "i" && curr_words.contains "you")
          || (prev_words.contains "you" && curr_words.contains "i") then
        true
      else
        false

/-- Helper for `format_segments`: the loop body of the source, walking the
segment list with the running index, the pending `current_text` words and
the accumulated `formatted_lines`. -/
def format_segments_loop (all_segments : List Segment) :
    List Segment → Nat → List String → List String → List String
  | [], _, current_text, formatted_lines =>
    if current_text.isEmpty then formatted_lines
    else formatted_lines ++ [String.intercalate " " current_text]
  | seg :: rest, i, current_text, formatted_lines =>
    let text := pyStrip seg.text
    if text = "" then
      format_segments_loop all_segments rest (i + 1) current_text formatted_lines
    else
      let new_speaker := detect_speaker_change seg all_segments i
      if new_speaker && decide (0 < i) && !current_text.isEmpty then
        format_segments_loop all_segments rest (i + 1) [text]
          (formatted_lines ++ [String.intercalate " " current_text])
      else
        format_segments_loop all_segments rest (i + 1) (current_text ++ [text])
          formatted_lines

/-- Embedding of `format_segments(segments)` from src/utils/recorder.py:
joins segment texts, starting a new line whenever the speaker-change
heuristic fires (except at the very first non-empty segment). -/
def format_segments (segments : List Segment) : String :=
  String.intercalate "\n" (format_segments_loop segments segments 0 [] [])

/-- The value returned by `WHISPER_MODEL.transcribe`, restricted to the two
keys the dispatcher reads: the flat `text` and the optional `segments`
list (an absent or empty key is the empty list). -/
structure TranscribeResult where
  text : String
  segments : List Segment
deriving DecidableEq

/-- One call to the persistence collaborator `save_transcript`, recording
the text and the `has_speakers` flag passed (the flag defaults to `False`
in the definition of `save_transcript` in src/storage/db.py when the call
site omits it). The wall-clock timestamp argument is not modelled. -/
structure SaveCall where
  text : String
  has_speakers : Bool
deriving DecidableEq

/-- Embedding of the decision logic of `process_audio_chunk(audio_buffer)`
from src/utils/recorder.py, given the transcription engine result for the
buffer: the list of `save_transcript` calls it performs. The source trims
the engine text, drops it when it is empty or its lower-casing is in the
artifact list, and otherwise saves exactly once: the segment-formatted
text (passing `has_speakers=False` explicitly) when segments are present,
else the flat text (leaving `has_speakers` at its default `False`). -/
def process_audio_chunk (result : TranscribeResult) : List SaveCall :=
  let text := pyStrip result.text
  if 0 < text.length
      && !(["thank you.", "thanks.", ""].contains (pyLower text)) then
    if 0 < result.segments.length then
      [⟨format_segments result.segments, false⟩]
    else
      [⟨text, false⟩]
  else
    []

/-- The three module-level recording-control flags of src/utils/recorder.py:
`_recording_active`, `_paused`, and whether `_stop_signal` is set. -/
structure RecState where
  active : Bool
  paused : Bool
  stopSig : Bool
deriving DecidableEq

/-- Embedding of `start_transcription()`: returns False untouched when
already active, otherwise clears the stop signal and the pause flag,
spawns the consumer thread and becomes active. -/
def start_transcription (s : RecState) : Bool × RecState :=
  if s.active then (false, s)
  else (true, ⟨true, false, false⟩)

/-- Embedding of `pause_transcription()`: fails when not active or already
paused, otherwise sets the pause flag. -/
def pause_transcription (s : RecState) : Bool × RecState :=
  if !s.active then (false, s)
  else if s.paused then (false, s)
  else (true, ⟨s.active, true, s.stopSig⟩)

/-- Embedding of `resume_transcription()`: fails when not active or not
paused, otherwise clears the pause flag. -/
def resume_transcription (s : RecState) : Bool × RecState :=
  if !s.active then (false, s)
  else if !s.paused then (false, s)
  else (true, ⟨s.active, false, s.stopSig⟩)

/-- Embedding of `stop_transcription()`: fails when not active, otherwise
sets the stop signal, clears the pause flag, joins the consumer thread and
clears the active flag. -/
def stop_transcription (s : RecState) : Bool × RecState :=
  if !s.active then (false, s)
  else (true, ⟨false, false, true⟩)

/-- The abstract `RecordingState` of the specification. -/
inductive RSLabel where
  | Stopped
  | Recording
  | Paused
deriving DecidableEq, Fintype

/-- The abstraction from the flag triple to the specification state:
not active is Stopped; active and paused is Paused; active and not paused
is Recording. -/
def stateOf (s : RecState) : RSLabel :=
  if !s.active then .Stopped
  else if s.paused then .Paused
  else .Recording

/-- The four public lifecycle operations. -/
inductive LifecycleOp where
  | opStart
  | opPause
  | opResume
  | opStop
deriving DecidableEq, Fintype

/-- Dispatch a lifecycle operation to the corresponding source function. -/
def applyOp (op : LifecycleOp) (s : RecState) : Bool × RecState :=
  match op with
  | .opStart => start_transcription s
  | .opPause => pause_transcription s
  | .opResume => resume_transcription s
  | .opStop => stop_transcription s

/-- The transition edges named by the claim: for a label and an operation,
the target label when the edge applies, `none` otherwise. -/
def claimEdge (l : RSLabel) (op : LifecycleOp) : Option RSLabel :=
  match l, op with
  | .Stopped, .opStart => some .Recording
  | .Recording, .opPause => some .Paused
  | .Paused, .opResume => some .Recording
  | .Recording, .opStop => some .Stopped
  | .Paused, .opStop => some .Stopped
  | _, _ => none

/-- What one `_audio_queue.get(timeout=0.2)` call yields inside the consumer
loop: a frame of some number of samples, or `queue.Empty` on timeout. -/
inductive QGet where
  | frame (n : Nat)
  | timeout
deriving DecidableEq

/-- The external inputs one consumer-loop iteration observes: the values of
the stop signal and the pause flag as read at the top of the iteration,
and the queue result (read only when neither flag short-circuits). -/
structure IterInput where
  stopSet : Bool
  paused : Bool
  qget : QGet
deriving DecidableEq

/-- One dispatch attempt of `process_audio_chunk` as seen from the consumer
loop: the buffer sample count handed over, the `is_final_chunk` argument,
and whether the engine call returned without raising. -/
structure Dispatch where
  len : Nat
  isFinal : Bool
  ok : Bool
deriving DecidableEq

/-- How the embedded consumer loop ended. -/
inductive LoopExit where
  | stopped
  | crashed
  | inputsExhausted
deriving DecidableEq

/-- Result of running the consumer loop of `transcribe_from_mic` over a
finite input trace. -/
structure LoopResult where
  dispatches : List Dispatch
  buffer : Nat
  remaining : List IterInput
  exit : LoopExit
deriving DecidableEq

/-- Embedding of the `while not _stop_signal.is_set()` consumer loop of
`transcribe_from_mic` in src/utils/recorder.py, parameterised by which
buffer lengths make the transcription engine raise (`raises`). The source
has no handler for engine exceptions around the mid-stream
`process_audio_chunk(audio_buffer)` call (its inner `except` only catches
`queue.Empty`), so an engine exception terminates the loop with the
failed buffer still unflushed and the rest of the trace unconsumed. A
successful dispatch resets the buffer to empty. While paused the loop
only sleeps; on timeout it re-checks the flags. -/
def consumerLoop (raises : Nat → Bool) (buffer : Nat) :
    List IterInput → LoopResult
  | [] => ⟨[], buffer, [], .inputsExhausted⟩
  | i :: rest =>
    if i.stopSet then
      ⟨[], buffer, rest, .stopped⟩
    else if i.paused then
      consumerLoop raises buffer rest
    else
      match i.qget with
      | .timeout => consumerLoop raises buffer rest
      | .frame n =>
        let b := buffer + n
        if SAMPLERATE * CHUNK_DURATION ≤ b then
          if raises b then
            ⟨[⟨b, false, false⟩], b, rest, .crashed⟩
          else
            let r := consumerLoop raises 0 rest
            ⟨⟨b, false, true⟩ :: r.dispatches, r.buffer, r.remaining, r.exit⟩
        else
          consumerLoop raises b rest

/-- Embedding of the `finally` block that follows the consumer loop in
`transcribe_from_mic`: when the loop exited (by stop signal, keyboard
interrupt, or a propagating exception), the remaining buffer is force
dispatched as a final chunk when it holds strictly more than
`SAMPLERATE * 1` samples (the final dispatch itself is wrapped in a
`try`/`except`, so a raising engine only marks the attempt failed);
shorter trailing audio is skipped. -/
def finalFlush (raises : Nat → Bool) (r : LoopResult) : LoopResult :=
  match r.exit with
  | .inputsExhausted => r
  | _ =>
    if SAMPLERATE * 1 < r.buffer then
      ⟨r.dispatches ++ [⟨r.buffer, true, !raises r.buffer⟩], r.buffer,
        r.remaining, r.exit⟩
    else
      r

/-- The consumer thread body over a finite trace: the loop followed by the
final-flush clause. -/
def transcribe_run (raises : Nat → Bool) (inputs : List IterInput) : LoopResult :=
  finalFlush raises (consumerLoop raises 0 inputs)

/-- Embedding of the `audio_callback` closure of `transcribe_from_mic`:
given the flags it reads and the current hand-off queue (`none` when
`_audio_queue` is `None`), returns the queue after the callback handles
one incoming frame. It returns the queue unchanged when the stop signal
is set or recording is inactive, and enqueues the frame only when not
paused and the queue exists. -/
def audio_callback (stopSet active paused : Bool) (q : Option (List Nat))
    (frameSamples : Nat) : Option (List Nat) :=
  if stopSet || !active then q
  else if !paused && q.isSome then q.map (fun l => l ++ [frameSamples])
  else q

/-- Result of one iteration of the consumer loop body, with the hand-off
queue explicit: the queue and accumulator afterwards, the buffer length
dispatched this iteration (if any), and whether the loop exited. -/
structure IterResult where
  q : List Nat
  buffer : Nat
  dispatched : Option Nat
  exited : Bool
deriving DecidableEq

/-- One iteration of the consumer loop of `transcribe_from_mic`, with the
hand-off queue explicit: on stop the loop exits; while paused it sleeps
without touching the queue or the accumulator; otherwise it dequeues one
frame (or times out on an empty queue), appends it to the accumulator and
dispatches with a reset when the chunk threshold is reached. -/
def consumerIter (stopSet paused : Bool) (q : List Nat) (buffer : Nat) :
    IterResult :=
  if stopSet then ⟨q, buffer, none, true⟩
  else if paused then ⟨q, buffer, none, false⟩
  else
    match q with
    | [] => ⟨[], buffer, none, false⟩
    | n :: rest =>
      let b := buffer + n
      if SAMPLERATE * CHUNK_DURATION ≤ b then ⟨rest, 0, some b, false⟩
      else ⟨rest, b, none, false⟩

/-- Embedding of `get_seconds_until_next_interval()` from
src/utils/periodic_tasks.py, with the wall-clock minute and second and
the configured interval passed explicitly:
`((SUMMARY_INTERVAL_MIN - now.minute % SUMMARY_INTERVAL_MIN) * 60) - now.second`. -/
def get_seconds_until_next_interval (interval minute second : Int) : Int :=
  ((interval - minute % interval) * 60) - second

/-- Embedding of `generate_with_ollama(prompt)` from src/utils/summarize.py,
with the outcome of the HTTP request passed explicitly: a request
exception (including the `HTTPError` that `raise_for_status` raises on an
error status, both caught by the same handler) carries its message; a
successful response carries its JSON object as a key-value list. -/
def generate_with_ollama (outcome : Except String (List (String × String))) :
    String :=
  match outcome with
  | .error e => "Error generating summary: " ++ e
  | .ok json => ((json.lookup "response").getD "")

/-- Embedding of `delete_transcripts_in_time_range(start_time, end_time)`
from src/utils/transcripts.py over the persisted transcript files,
each represented by the timestamp parsed from its filename (`none` for a
file whose name does not parse, which the source skips). Returns the
surviving files and the count of deleted ones; a file is deleted exactly
when `start_time <= file_time <= end_time`. -/
def delete_transcripts_in_time_range (start_time end_time : Int) :
    List (Option Int) → List (Option Int) × Nat
  | [] => ([], 0)
  | none :: rest =>
    let r := delete_transcripts_in_time_range start_time end_time rest
    (none :: r.1, r.2)
  | some t :: rest =>
    let r := delete_transcripts_in_time_range start_time end_time rest
    if start_time ≤ t && t ≤ end_time then (r.1, r.2 + 1)
    else (some t :: r.1, r.2)

/-- The outcome of the `summarize_recent_transcripts(...)` call inside
`summarize_job`: it raised an exception (carrying a message), returned
`None`, or returned a string. -/
inductive SummarizeOutcome where
  | raised (msg : String)
  | retNone
  | retStr (s : String)
deriving DecidableEq

/-- The observable effect of one `summarize_job()` invocation on the
persisted transcript set: the files afterwards, whether
`delete_transcripts_in_time_range` was called, and the deleted count. -/
structure JobResult where
  files : List (Option Int)
  deleteCalled : Bool
  deletedCount : Nat
deriving DecidableEq

/-- Embedding of `summarize_job()` from src/utils/periodic_tasks.py, with
the outcome of the summarization call passed explicitly. The source runs
the summarization inside `try`/`except`; only when it returns a truthy
string not starting with `"Error"` does it call
`delete_transcripts_in_time_range` on the interval; in every other case
(exception, `None`, empty string, error-prefixed string) the transcript
files are left untouched. -/
def summarize_job (outcome : SummarizeOutcome) (start_time end_time : Int)
    (files : List (Option Int)) : JobResult :=
  match outcome with
  | .raised _ => ⟨files, false, 0⟩
  | .retNone => ⟨files, false, 0⟩
  | .retStr s =>
    if !(s = "") && !(pyStartsWith s "Error") then
      let d := delete_transcripts_in_time_range start_time end_time files
      ⟨d.1, true, d.2⟩
    else
      ⟨files, false, 0⟩

/-- The two example segments of the claim C7:
first segment text "I am fine" spanning 0 to 2 seconds, second
"you are too" spanning 2.2 to 4 seconds. -/
def exampleSegs : List Segment := [⟨"I am fine", 0, 2⟩, ⟨"you are too", 2.2, 4⟩]

/-- First rule of claim C7: the first segment always starts a block. -/
def ruleFirst (i : Nat) : Bool := i == 0

/-- Second rule of claim C7: a gap of more than one second between the end
of the previous segment and the start of this one. -/
def ruleGap (segs : List Segment) (i : Nat) : Bool :=
  decide (1 < (segs.getD i default).startT - (segs.getD (i - 1) default).endT)

/-- Third rule of claim C7: the previous text ends with a question mark and
this one does not. -/
def ruleQA (segs : List Segment) (i : Nat) : Bool :=
  pyEndsWithQm (pyStrip (segs.getD (i - 1) default).text)
    && !(pyEndsWithQm (pyStrip (segs.getD i default).text))

/-- Fourth rule of claim C7: the word "I" appears in the previous segment
and "you" in this one, or vice versa. -/
def rulePronounFlip (segs : List Segment) (i : Nat) : Bool :=
  let pw := pySplit (pyLower (segs.getD (i - 1) default).text)
  let cw := pySplit (pyLower (segs.getD i default).text)
  (pw.contains "i" && cw.contains "you") || (pw.contains "you" && cw.contains "i")

/-- Engine stub for the C2 analysis: the transcription call raises exactly
on a buffer of 160000 samples. -/
def raisesAt160000 : Nat → Bool := fun b => b == 160000

/-- Concrete consumer trace for the C2 analysis: a first frame that fills a
whole 10-second chunk (160000 samples), then a second frame of 170000
samples that would itself fill a chunk. -/
def crashTrace : List IterInput :=
  [⟨false, false, .frame 160000⟩, ⟨false, false, .frame 170000⟩]

/-- Concrete engine result with segment timing for the C9 analysis. -/
def segResult : TranscribeResult := ⟨" I am fine ", [⟨"I am fine", 0, 2⟩]⟩

/-- C5: the recording state changes only along the edges
Stopped-start-Recording, Recording-pause-Paused, Paused-resume-Recording,
Recording-stop-Stopped, Paused-stop-Stopped; a call succeeds exactly when
its edge applies, lands on the target of that edge, and every other call
returns False with the active flag, pause flag and stop signal all
unchanged. -/
theorem recording_state_machine_follows_edges :
    ∀ (a p st : Bool) (op : LifecycleOp),
      ((applyOp op ⟨a, p, st⟩).1 = (claimEdge (stateOf ⟨a, p, st⟩) op).isSome) ∧
      (∀ tgt, claimEdge (stateOf ⟨a, p, st⟩) op = some tgt →
        stateOf (applyOp op ⟨a, p, st⟩).2 = tgt) ∧
      (claimEdge (stateOf ⟨a, p, st⟩) op = none →
        (applyOp op ⟨a, p, st⟩).2 = ⟨a, p, st⟩) := by
  decide

/-- Witness for the C5 theorem: a successful start from Stopped lands in
Recording, and a pause issued while Stopped leaves the flags untouched. -/
theorem recording_state_machine_follows_edges_witness :
    stateOf (applyOp .opStart ⟨false, false, true⟩).2 = .Recording ∧
    (applyOp .opPause ⟨false, false, false⟩).2 = ⟨false, false, false⟩ :=
  ⟨(recording_state_machine_follows_edges false false true .opStart).2.1
      .Recording (by decide),
    (recording_state_machine_follows_edges false false false .opPause).2.2
      (by decide)⟩

/-- C4 (code divergence): when stop is issued with exactly one second of
buffered audio (16000 samples, which is exactly `SAMPLERATE * 1`), the
final-flush clause performs zero dispatch attempts, because the source
comparison `len(audio_buffer) > SAMPLERATE * 1` is strict, although the
adjacent source comment reads "At least 1 second"; one sample more and
exactly one final dispatch occurs. -/
theorem stop_flush_skips_exactly_one_second :
    (transcribe_run (fun _ => false)
        [⟨false, false, .frame 16000⟩, ⟨true, false, .timeout⟩]).dispatches = [] ∧
    (transcribe_run (fun _ => false)
        [⟨false, false, .frame 16001⟩, ⟨true, false, .timeout⟩]).dispatches
      = [⟨16001, true, true⟩] ∧
    SAMPLERATE * 1 = 16000 := by
  decide

/-- C3 (counterexample): while paused (stop clear, recording active), a
frame arriving at the capture callback is dropped before enqueue, so the
hand-off queue does not change, and the consumer iteration neither drains
the queue nor touches the accumulator; the same frame when not paused is
enqueued, showing the enqueue path is gated on the pause flag, contrary
to the claim that the consumer keeps draining while the enqueue path is
never stopped. -/
theorem paused_callback_drops_frames_counterexample :
    audio_callback false true true (some [480]) 480 = some [480] ∧
    consumerIter false true [480] 7 = ⟨[480], 7, none, false⟩ ∧
    audio_callback false true false (some [480]) 480 = some [480, 480] := by
  decide

/-- C3 (amended): while the pause flag is set the capture callback discards
incoming frames before enqueue (the queue is unchanged, though the device
stream keeps invoking the callback) and the consumer iteration sleeps
without draining the queue or growing the accumulator; with the pause
flag clear the callback enqueues the frame and the consumer dequeues and
accumulates (dispatching with a reset at the chunk threshold). -/
theorem pause_discards_at_enqueue (q : List Nat) (f b : Nat) :
    audio_callback false true true (some q) f = some q ∧
    consumerIter false true q b = ⟨q, b, none, false⟩ ∧
    audio_callback false true false (some q) f = some (q ++ [f]) ∧
    consumerIter false false (f :: q) b =
      (if SAMPLERATE * CHUNK_DURATION ≤ b + f then ⟨q, 0, some (b + f), false⟩
        else ⟨q, b + f, none, false⟩) := by
  refine ⟨by simp [audio_callback], by simp [consumerIter], by simp [audio_callback], ?_⟩
  simp only [consumerIter]
  split <;> simp_all

/-- C9 (counterexample): on an engine result that does carry segment
timing, the dispatcher saves the segment-formatted text with
`has_speakers = false` (the source passes `has_speakers=False`
explicitly on this path), not `true` as the claim states. -/
theorem segments_save_has_speakers_false_counterexample :
    0 < segResult.segments.length ∧
    process_audio_chunk segResult = [⟨"I am fine", false⟩] := by
  decide

/-- C9 (amended): every `save_transcript` call the dispatcher makes carries
`has_speakers = false`, on the segment-formatted path (where the source
passes `False` explicitly) as well as on the flat-text path (where the
source omits the argument and the persistence default is `False`); the
flag therefore does not record whether segmentation was applied. -/
theorem save_calls_never_flag_speakers (result : TranscribeResult) :
    (process_audio_chunk result).all (fun c => !c.has_speakers) = true := by
  simp only [process_audio_chunk]
  split
  · split <;> simp
  · simp

/-- C10: `generate_with_ollama` is total over engine-request failures: a
request exception yields a returned string beginning with
"Error generating summary:", and an HTTP success yields the value of the
JSON key "response", or the empty string when that key is absent. -/
theorem generate_with_ollama_total (e : String) (json : List (String × String)) :
    pyStartsWith (generate_with_ollama (.error e)) "Error generating summary:" = true ∧
    generate_with_ollama (.ok json) =
      (match json.lookup "response" with
        | some v => v
        | none => "") := by
  constructor
  · show ("Error generating summary:".data.isPrefixOf
      ("Error generating summary: " ++ e).data) = true
    rw [String.data_append, List.isPrefixOf_iff_prefix]
    have h : ("Error generating summary: ").data
        = "Error generating summary:".data ++ " ".data := by decide
    rw [h, List.append_assoc]
    exact List.prefix_append _ _
  · cases hj : json.lookup "response" <;> simp [generate_with_ollama, hj]

/-- C1: one `summarize_job` invocation calls the transcript deletion exactly
when the summarization call returned a non-empty string not starting with
"Error"; whenever deletion is not called (summarization raised, returned
None, returned an empty string or an error-prefixed string), the
persisted transcript set is returned unchanged. -/
theorem transcripts_deleted_only_after_success (outcome : SummarizeOutcome)
    (st et : Int) (files : List (Option Int)) :
    ((summarize_job outcome st et files).deleteCalled = true ↔
      ∃ s, outcome = .retStr s ∧ s ≠ "" ∧ pyStartsWith s "Error" = false) ∧
    ((summarize_job outcome st et files).deleteCalled = false →
      summarize_job outcome st et files = ⟨files, false, 0⟩) := by
  cases outcome with
  | raised msg => simp [summarize_job]
  | retNone => simp [summarize_job]
  | retStr s =>
    by_cases h1 : s = ""
    · simp [summarize_job, h1]
    · by_cases h2 : pyStartsWith s "Error"
      · simp [summarize_job, h1, h2]
      · simp [summarize_job, h1, h2]

/-- Witness for the C1 theorem: with a successful summary "ok" the deletion
is called, and with a raising summarization call the transcript files
survive unchanged. -/
theorem transcripts_deleted_only_after_success_witness :
    (summarize_job (.retStr "ok") 0 10 [some 5]).deleteCalled = true ∧
    summarize_job (.raised "TypeError") 0 10 [some 5] = ⟨[some 5], false, 0⟩ :=
  ⟨(transcripts_deleted_only_after_success (.retStr "ok") 0 10 [some 5]).1.mpr
      ⟨"ok", rfl, by decide, by decide⟩,
    (transcripts_deleted_only_after_success (.raised "TypeError") 0 10
      [some 5]).2 (by decide)⟩

/-- C8: for a wall-clock reading with minute m and second s, the scheduler
sleep computation returns ((interval - m mod interval) * 60) - s, which is
positive, at most interval * 60 seconds away, and lands exactly on a
wall-clock boundary aligned to the interval: interval divides the clock
reading 60 * m + s advanced by the returned number of seconds. -/
theorem scheduler_wake_is_interval_aligned (I m s : Int) (hI : 0 < I)
    (h0 : 0 ≤ s) (h60 : s < 60) :
    get_seconds_until_next_interval I m s = ((I - m % I) * 60) - s ∧
    0 < get_seconds_until_next_interval I m s ∧
    get_seconds_until_next_interval I m s ≤ I * 60 ∧
    (60 * m + s + get_seconds_until_next_interval I m s) % (60 * I) = 0 := by
  have hmod0 : 0 ≤ m % I := Int.emod_nonneg m (ne_of_gt hI)
  have hmodI : m % I < I := Int.emod_lt_of_pos m hI
  refine ⟨rfl, ?_, ?_, ?_⟩
  · show 0 < ((I - m % I) * 60) - s
    nlinarith
  · show ((I - m % I) * 60) - s ≤ I * 60
    nlinarith
  · show (60 * m + s + (((I - m % I) * 60) - s)) % (60 * I) = 0
    have hdiv : m % I = m - I * (m / I) := Int.emod_def m I
    have key : 60 * m + s + (((I - m % I) * 60) - s) = (60 * I) * (m / I + 1) := by
      rw [hdiv]; ring
    rw [key]
    exact Int.mul_emod_right _ _

/-- Witness for the C8 theorem: with the configured 15-minute interval, at
52 minutes and 30 seconds past the hour the scheduler sleeps 450 seconds,
waking exactly at the next quarter-hour boundary. -/
theorem scheduler_wake_is_interval_aligned_witness :
    get_seconds_until_next_interval SUMMARY_INTERVAL_MIN 52 30
        = ((SUMMARY_INTERVAL_MIN - 52 % SUMMARY_INTERVAL_MIN) * 60) - 30 ∧
    0 < get_seconds_until_next_interval SUMMARY_INTERVAL_MIN 52 30 ∧
    get_seconds_until_next_interval SUMMARY_INTERVAL_MIN 52 30
        ≤ SUMMARY_INTERVAL_MIN * 60 ∧
    (60 * 52 + 30 + get_seconds_until_next_interval SUMMARY_INTERVAL_MIN 52 30)
        % (60 * SUMMARY_INTERVAL_MIN) = 0 :=
  scheduler_wake_is_interval_aligned SUMMARY_INTERVAL_MIN 52 30 (by decide)
    (by decide) (by decide)

/-- C7: `detect_speaker_change(segments[i], segments, i)` returns true
exactly when one of the four rules of the claim fires (first segment,
pause longer than one second, question-answer pattern, pronoun flip); in
particular on the example list it returns true at index 0 and true at
index 1, where only the pronoun-flip rule fires (the 0.2 second gap is
below the pause threshold and no question mark is involved). -/
theorem detect_speaker_change_iff_rules (segs : List Segment) (i : Nat)
    (h : i < segs.length) :
    (detect_speaker_change (segs.get ⟨i, h⟩) segs i
      = (ruleFirst i || ruleGap segs i || ruleQA segs i || rulePronounFlip segs i)) ∧
    detect_speaker_change ⟨"I am fine", 0, 2⟩ exampleSegs 0 = true ∧
    detect_speaker_change ⟨"you are too", 2.2, 4⟩ exampleSegs 1 = true := by
  refine ⟨?_, by simp [detect_speaker_change], ?_⟩
  · by_cases hi : i = 0
    · simp [detect_speaker_change, ruleFirst, hi]
    · have hget : segs.get ⟨i, h⟩ = segs.getD i default := by
        rw [List.getD_eq_getElem?_getD]
        simp [List.getElem?_eq_getElem h]
      have hbeq : (i == 0) = false := by simp [hi]
      simp only [detect_speaker_change, ruleFirst, ruleGap, ruleQA,
        rulePronounFlip, hget, if_neg hi, hbeq, Bool.false_or]
      simp [Bool.or_assoc]
  · simp only [detect_speaker_change, exampleSegs]
    norm_num
    decide

/-- Witness for the C7 theorem, at the example list and index 1: the
heuristic agrees with the disjunction of the four rules there (and the
two example evaluations hold). -/
theorem detect_speaker_change_iff_rules_witness :
    (detect_speaker_change (exampleSegs.get ⟨1, by decide⟩) exampleSegs 1
      = (ruleFirst 1 || ruleGap exampleSegs 1 || ruleQA exampleSegs 1
          || rulePronounFlip exampleSegs 1)) ∧
    detect_speaker_change ⟨"I am fine", 0, 2⟩ exampleSegs 0 = true ∧
    detect_speaker_change ⟨"you are too", 2.2, 4⟩ exampleSegs 1 = true :=
  detect_speaker_change_iff_rules exampleSegs 1 (by decide)

/-- Lower-casing a string yields the empty string exactly for the empty
string (lower-casing maps characters one to one). -/
theorem pyLower_eq_empty_iff (t : String) : pyLower t = "" ↔ t = "" := by
  constructor
  · intro hl
    have hd : (t.data.map Char.toLower) = [] := congrArg String.data hl
    have : t.data = [] := List.map_eq_nil_iff.mp hd
    cases t
    simp_all
  · intro ht
    rw [ht]
    rfl

/-- C6: the dispatcher calls `save_transcript` zero times when the trimmed
engine text is empty or its lower-casing equals one of the silence
artifact phrases, and exactly once for every other text. -/
theorem save_iff_meaningful (result : TranscribeResult) :
    (process_audio_chunk result).length =
      (if pyStrip result.text = ""
          ∨ pyLower (pyStrip result.text) = "thank you."
          ∨ pyLower (pyStrip result.text) = "thanks." then 0 else 1) := by
  simp only [process_audio_chunk]
  by_cases h1 : pyStrip result.text = ""
  · have hlen : (pyStrip result.text).length = 0 := by rw [h1]; rfl
    simp [h1, hlen]
  · have hlen : 0 < (pyStrip result.text).length := by
      rcases Nat.eq_zero_or_pos (pyStrip result.text).length with h | h
      · exfalso
        apply h1
        have : (pyStrip result.text).data = [] := List.length_eq_zero.mp h
        cases hps : pyStrip result.text
        simp_all
      · exact h
    by_cases h2 : pyLower (pyStrip result.text) = "thank you."
    · simp [h1, h2, hlen, List.contains]
    · by_cases h3 : pyLower (pyStrip result.text) = "thanks."
      · simp [h1, h2, h3, hlen, List.contains]
      · have h4 : ¬ pyLower (pyStrip result.text) = "" := by
          rw [pyLower_eq_empty_iff]
          exact h1
        simp [h1, h2, h3, h4, hlen, List.contains]
        split <;> simp

/-- C2 (counterexample): with an engine that raises on the 160000-sample
buffer, running the consumer over a trace holding that chunk followed by
a second, independently transcribable frame ends with the loop crashed:
no save for the failed buffer, the second frame left unconsumed in the
trace (the loop does not keep processing subsequent audio), and the only
further activity is the failed final-flush retry of the same buffer. -/
theorem engine_crash_halts_loop_counterexample :
    transcribe_run raisesAt160000 crashTrace =
      ⟨[⟨160000, false, false⟩, ⟨160000, true, false⟩], 160000,
        [⟨false, false, .frame 170000⟩], .crashed⟩ ∧
    (transcribe_run raisesAt160000 crashTrace).dispatches.all (fun d => !d.ok)
      = true := by
  decide

/-- When the loop has crashed, the final-flush clause of the source
(reached because the propagating exception runs the `finally` block)
performs exactly one additional forced dispatch of the unflushed buffer,
because a crashed buffer always exceeds the one-second threshold. -/
theorem finalFlush_crashed_dispatches (raises : Nat → Bool) (r : LoopResult)
    (he : r.exit = .crashed) (hb : SAMPLERATE * 1 < r.buffer) :
    (finalFlush raises r).dispatches
      = r.dispatches ++ [⟨r.buffer, true, !raises r.buffer⟩] := by
  have hb2 : SAMPLERATE < r.buffer := by simpa using hb
  unfold finalFlush
  rw [he]
  simp [hb2]

/-- C2 (amended): when the transcription engine raises during a mid-stream
dispatch, the consumer loop terminates instead of continuing: the buffer
that crashed was a full chunk, its dispatch is the last and is marked
failed (no transcript entry), every input after the crash point is left
unconsumed (the remaining trace is a suffix of the input trace), and the
only further dispatch is the single failed final-flush retry of the same
buffer performed by the shutdown path. -/
theorem engine_exception_terminates_loop (raises : Nat → Bool) (buf : Nat)
    (inputs : List IterInput)
    (h : (consumerLoop raises buf inputs).exit = .crashed) :
    SAMPLERATE * CHUNK_DURATION ≤ (consumerLoop raises buf inputs).buffer ∧
    raises (consumerLoop raises buf inputs).buffer = true ∧
    (∃ ds, (consumerLoop raises buf inputs).dispatches
      = ds ++ [⟨(consumerLoop raises buf inputs).buffer, false, false⟩]) ∧
    (∃ k, (consumerLoop raises buf inputs).remaining = List.drop k inputs) ∧
    (finalFlush raises (consumerLoop raises buf inputs)).dispatches
      = (consumerLoop raises buf inputs).dispatches
        ++ [⟨(consumerLoop raises buf inputs).buffer, true, false⟩] := by
  induction inputs generalizing buf with
  | nil => simp [consumerLoop] at h
  | cons i rest ih =>
    by_cases hstop : i.stopSet = true
    · rw [consumerLoop] at h
      simp [hstop] at h
    · by_cases hpause : i.paused = true
      · have hred : consumerLoop raises buf (i :: rest) = consumerLoop raises buf rest := by
          rw [consumerLoop]
          simp [hstop, hpause]
        rw [hred] at h ⊢
        obtain ⟨c1, c2, c3, ⟨k, hk⟩, c5⟩ := ih buf h
        exact ⟨c1, c2, c3, ⟨k + 1, by simpa using hk⟩, c5⟩
      · cases hq : i.qget with
        | timeout =>
          have hred : consumerLoop raises buf (i :: rest) = consumerLoop raises buf rest := by
            rw [consumerLoop]
            simp [hstop, hpause, hq]
          rw [hred] at h ⊢
          obtain ⟨c1, c2, c3, ⟨k, hk⟩, c5⟩ := ih buf h
          exact ⟨c1, c2, c3, ⟨k + 1, by simpa using hk⟩, c5⟩
        | frame n =>
          by_cases hth : SAMPLERATE * CHUNK_DURATION ≤ buf + n
          · by_cases hr : raises (buf + n) = true
            · have hred : consumerLoop raises buf (i :: rest)
                  = ⟨[⟨buf + n, false, false⟩], buf + n, rest, .crashed⟩ := by
                rw [consumerLoop]
                simp [hstop, hpause, hq, hth, hr]
              rw [hred]
              refine ⟨hth, hr, ⟨[], rfl⟩, ⟨1, rfl⟩, ?_⟩
              have hflush := finalFlush_crashed_dispatches raises
                ⟨[⟨buf + n, false, false⟩], buf + n, rest, .crashed⟩ rfl
                (by simp [SAMPLERATE, CHUNK_DURATION] at hth ⊢; omega)
              simpa [hr] using hflush
            · have hred : consumerLoop raises buf (i :: rest)
                  = ⟨⟨buf + n, false, true⟩ :: (consumerLoop raises 0 rest).dispatches,
                      (consumerLoop raises 0 rest).buffer,
                      (consumerLoop raises 0 rest).remaining,
                      (consumerLoop raises 0 rest).exit⟩ := by
                rw [consumerLoop]
                simp [hstop, hpause, hq, hth, hr]
              rw [hred] at h ⊢
              simp only at h
              obtain ⟨c1, c2, ⟨ds, hds⟩, ⟨k, hk⟩, c5⟩ := ih 0 h
              refine ⟨c1, c2, ⟨⟨buf + n, false, true⟩ :: ds, by simp [hds]⟩,
                ⟨k + 1, by simpa using hk⟩, ?_⟩
              have hflush := finalFlush_crashed_dispatches raises
                ⟨⟨buf + n, false, true⟩ :: (consumerLoop raises 0 rest).dispatches,
                  (consumerLoop raises 0 rest).buffer,
                  (consumerLoop raises 0 rest).remaining,
                  (consumerLoop raises 0 rest).exit⟩
                (by simpa using h)
                (by simp only []; simp [SAMPLERATE, CHUNK_DURATION] at c1 ⊢; omega)
              simpa [c2] using hflush
          · have hred : consumerLoop raises buf (i :: rest)
                = consumerLoop raises (buf + n) rest := by
              rw [consumerLoop]
              simp [hstop, hpause, hq, hth]
            rw [hred] at h ⊢
            obtain ⟨c1, c2, c3, ⟨k, hk⟩, c5⟩ := ih (buf + n) h
            exact ⟨c1, c2, c3, ⟨k + 1, by simpa using hk⟩, c5⟩

/-- Witness for the C2 amended theorem, at the concrete crash trace: the
loop over it crashes, and the theorem facts hold there. -/
theorem engine_exception_terminates_loop_witness :
    SAMPLERATE * CHUNK_DURATION ≤ (consumerLoop raisesAt160000 0 crashTrace).buffer ∧
    raisesAt160000 (consumerLoop raisesAt160000 0 crashTrace).buffer = true ∧
    (∃ ds, (consumerLoop raisesAt160000 0 crashTrace).dispatches
      = ds ++ [⟨(consumerLoop raisesAt160000 0 crashTrace).buffer, false, false⟩]) ∧
    (∃ k, (consumerLoop raisesAt160000 0 crashTrace).remaining
      = List.drop k crashTrace) ∧
    (finalFlush raisesAt160000 (consumerLoop raisesAt160000 0 crashTrace)).dispatches
      = (consumerLoop raisesAt160000 0 crashTrace).dispatches
        ++ [⟨(consumerLoop raisesAt160000 0 crashTrace).buffer, true, false⟩] :=
  engine_exception_terminates_loop raisesAt160000 0 crashTrace (by decide)

end Jarvis
